import Mathlib

/-!
Verification of the driver of the C-to-ARMv8 cross compiler
(`Backend/compiler.py`).

The driver is embedded shallowly: every externally visible effect of
`compile_code` (prints, module initialisation, dump files, the quadruple
dump, the error-report file, the backend invocation, the interpreter
launch) becomes an `Event`, and `compile_code` becomes a pure function
from its inputs to the ordered list of events it performs together with
the exception it may raise.  The scanner/parser/semantic/codegen modules
imported by the driver are external to the driver file; the three error
texts they accumulate during `parse()` are therefore an input
(`ParseOutcome`) to the embedded driver, exactly as the driver reads them
from `parser.scanner.lexical_errors`, `parser.syntax_errors` and
`parser.semantic_analyzer.semantic_errors` after `parse()` returns.
File paths are modelled relative to the driver's directory (`script_dir`
in the source).
-/

/-- Python whitespace characters, as stripped by `str.strip()`:
space, tab, newline, carriage return, vertical tab, form feed. -/
def pyIsSpace (c : Char) : Bool :=
  c = ' ' || c = '\t' || c = '\n' || c = '\r' || c.toNat = 11 || c.toNat = 12

/-- Python `str.strip()`: remove leading and trailing whitespace. -/
def pyStrip (s : String) : String :=
  String.mk (((s.data.dropWhile pyIsSpace).reverse.dropWhile pyIsSpace).reverse)

/-- Python `str.splitlines()` restricted to the line terminators that occur
in the interpreter's decoded output: `\r\n`, `\r` and `\n`. -/
def splitlinesAux : List Char → List Char → List String
  | [], acc => if acc.isEmpty then [] else [String.mk acc.reverse]
  | '\r' :: '\n' :: rest, acc => String.mk acc.reverse :: splitlinesAux rest []
  | '\r' :: rest, acc => String.mk acc.reverse :: splitlinesAux rest []
  | '\n' :: rest, acc => String.mk acc.reverse :: splitlinesAux rest []
  | c :: rest, acc => splitlinesAux rest (c :: acc)

/-- Python `str.splitlines()` on a string. -/
def splitlines (s : String) : List String :=
  splitlinesAux s.data []

/-- `line.startswith("PRINT")` from the driver's output filter. -/
def startsWithPRINT : List Char → Bool
  | 'P' :: 'R' :: 'I' :: 'N' :: 'T' :: _ => true
  | _ => false

/-- `line.replace("PRINT", "")`: remove every occurrence of the marker,
left to right, as Python `str.replace` does for this fixed pattern. -/
def stripMarker : List Char → List Char
  | 'P' :: 'R' :: 'I' :: 'N' :: 'T' :: rest => stripMarker rest
  | c :: rest => c :: stripMarker rest
  | [] => []

/-- Whether a line contains the marker `"PRINT"` anywhere. -/
def containsPRINT : List Char → Bool
  | [] => false
  | c :: rest => startsWithPRINT (c :: rest) || containsPRINT rest

/-- The per-line transform of the driver's non-verbose output filter:
`line.replace("PRINT", "").strip()`. -/
def displayLine (line : String) : String :=
  pyStrip (String.mk (stripMarker line.data))

/-- The driver's non-verbose output filter (compiler.py lines 133-137):
`"\n".join([line.replace("PRINT", "").strip() for line in
tester_output.splitlines() if line.startswith("PRINT")])`. -/
def filterTesterOutput (out : String) : String :=
  String.intercalate "\n"
    (((splitlines out).filter (fun line => startsWithPRINT line.data)).map displayLine)

/-- The command-line arguments consumed by `compile_code`. -/
structure Args where
  source_file : String
  run : Bool
  verbose : Bool
  error_files : Bool
  abstract_ast : Bool
  symbol_table : Bool
  token_dump : Bool
deriving DecidableEq, Repr

/-- The three accumulated error texts that `compile_code` reads from the
parser after `parse()` returns (compiler.py lines 65-67, before stripping). -/
structure ParseOutcome where
  lexicalErrors : String
  syntaxErrors : String
  semanticErrors : String
deriving DecidableEq, Repr

/-- The host platform as reported by `platform.system()`; `other` stands
for any value besides the three supported ones. -/
inductive Platform where
  | windows
  | linux
  | darwin
  | other
deriving DecidableEq, Repr

/-- Outcome of `sp.check_output` on the interpreter: its decoded stdout,
or a `TimeoutExpired` exception. -/
inductive TesterResult where
  | ok (out : String)
  | timeout
deriving DecidableEq, Repr

/-- The environment the driver runs in: platform, whether
`output/output.txt` exists, what the interpreter run yields, and the two
elapsed-time strings interpolated into the timing prints. -/
structure RunEnv where
  plat : Platform
  outputFileExists : Bool
  tester : TesterResult
  elapsedCompile : String
  elapsedExec : String
deriving DecidableEq, Repr

/-- One externally visible effect of the driver, in program order. -/
inductive Event where
  | print (s : String)
  | symbolTableInit
  | memoryManagerInit
  | parseCall (source : String)
  | saveParseTree
  | saveSymbolTable
  | saveTokens
  | saveSyntaxErrors
  | saveLexicalErrors
  | saveSemanticErrors
  | saveOutput
  | writeFile (path : String) (contents : String)
  | genARM
  | checkOutput (testerFile : String) (timeoutSecs : Nat) (memLimitBytes : Option Nat)
deriving DecidableEq, Repr

/-- Result of one driver run: its ordered effects and the exception it
raised, if any (effects before the raise are kept). -/
structure CompileResult where
  events : List Event
  exn : Option String
deriving DecidableEq, Repr

/-- `MAX_VIRTUAL_MEMORY = 50 * 1024 * 1024` (compiler.py line 27). -/
def MAX_VIRTUAL_MEMORY : Nat := 50 * 1024 * 1024

/-- The fixed no-lexical-errors sentinel compared against at line 68. -/
def sentinelLex : String := "There is no lexical errors."

/-- The fixed no-syntax-error sentinel compared against at line 70. -/
def sentinelSyn : String := "There is no syntax error."

/-- The fixed semantically-correct sentinel compared against at line 72. -/
def sentinelSem : String := "The input program is semantically correct."

/-- `flag_lex`: the stripped lexical text differs from its sentinel. -/
def flagLex (po : ParseOutcome) : Bool :=
  pyStrip po.lexicalErrors != sentinelLex

/-- `flag_syn`: the stripped syntax text differs from its sentinel. -/
def flagSyn (po : ParseOutcome) : Bool :=
  pyStrip po.syntaxErrors != sentinelSyn

/-- `flag_sem`: the stripped semantic text differs from its sentinel. -/
def flagSem (po : ParseOutcome) : Bool :=
  pyStrip po.semanticErrors != sentinelSem

/-- `has_errors = bool(flag_lex or flag_sem or flag_syn)` (line 74). -/
def has_errors (po : ParseOutcome) : Bool :=
  flagLex po || flagSem po || flagSyn po

/-- All three stripped error texts equal their no-errors sentinels. -/
def sentinelsOk (po : ParseOutcome) : Prop :=
  pyStrip po.lexicalErrors = sentinelLex ∧
  pyStrip po.syntaxErrors = sentinelSyn ∧
  pyStrip po.semanticErrors = sentinelSem

instance (po : ParseOutcome) : Decidable (sentinelsOk po) := by
  unfold sentinelsOk; infer_instance

/-- Effects of lines 39-48: the banner print, the two manager
re-initialisations, the parse, and the timing print. -/
def initialEvents (args : Args) (env : RunEnv) : List Event :=
  [Event.print ("Compiling " ++ args.source_file),
   Event.symbolTableInit,
   Event.memoryManagerInit,
   Event.parseCall args.source_file,
   Event.print ("Compilation took " ++ env.elapsedCompile ++ " s")]

/-- Effects of the flag-guarded dump block, lines 51-60, in source order. -/
def dumpEvents (args : Args) : List Event :=
  (if args.abstract_ast then [Event.saveParseTree] else []) ++
  (if args.symbol_table then [Event.saveSymbolTable] else []) ++
  (if args.token_dump then [Event.saveTokens] else []) ++
  (if args.error_files then
    [Event.saveSyntaxErrors, Event.saveLexicalErrors, Event.saveSemanticErrors]
   else [])

/-- The contents written to `armv8_output.s` on failure (lines 88-94):
one section per category whose stripped text is non-empty (Python string
truthiness), in lexical/syntax/semantic order. -/
def errorReportText (lex syn sem : String) : String :=
  (if lex ≠ "" then "Lexical Errors:\n" ++ lex ++ "\n\n" else "") ++
  (if syn ≠ "" then "Syntax Errors:\n" ++ syn ++ "\n\n" else "") ++
  (if sem ≠ "" then "Semantic Errors:\n" ++ sem ++ "\n" else "")

/-- Effects of the error branch, lines 76-95: the failure prints (one per
non-empty category) and the overwrite of `armv8_output.s` with the error
report.  `os.makedirs` on the already-existing directory is a no-op. -/
def failEvents (po : ParseOutcome) : List Event :=
  let lex := pyStrip po.lexicalErrors
  let syn := pyStrip po.syntaxErrors
  let sem := pyStrip po.semanticErrors
  [Event.print "Compilation failed due to the following errors:\n"] ++
  (if lex ≠ "" then [Event.print ("Lexical Errors:\n" ++ lex)] else []) ++
  (if syn ≠ "" then [Event.print ("Syntax Errors:\n" ++ syn)] else []) ++
  (if sem ≠ "" then [Event.print ("Semantic Errors:\n" ++ sem)] else []) ++
  [Event.writeFile "armv8_output.s" (errorReportText lex syn sem)]

/-- The interpreter binary chosen per platform (lines 106-111), relative
to the driver's directory.  On `other` the driver raises before choosing
a binary, so that arm is never consulted. -/
def testerFileFor : Platform → String
  | Platform.windows => "interpreter/tester_Windows.exe"
  | Platform.linux => "interpreter/tester_Linux.out"
  | Platform.darwin => "interpreter/tester_Mac.out"
  | Platform.other => ""

/-- `preexec_fn = limit_virtual_memory if plat == "Linux" else None`
(line 119): the address-space limit passed to the interpreter process. -/
def memLimitFor (p : Platform) : Option Nat :=
  if p = Platform.linux then some MAX_VIRTUAL_MEMORY else none

/-- Effects and exception of the `args.run` block after the platform
print, lines 103-142: platform dispatch (raising on an unsupported
system), the existence check on `output/output.txt`, the interpreter
launch with its 10-second timeout and Linux memory limit, and the
result/timeout handling. -/
def runBranch (args : Args) (env : RunEnv) : List Event × Option String :=
  match env.plat with
  | Platform.other => ([], some "Unsupported operating system!")
  | p =>
    if env.outputFileExists then
      match env.tester with
      | TesterResult.ok out =>
        ([Event.checkOutput (testerFileFor p) 10 (memLimitFor p),
          Event.print ("Execution took " ++ env.elapsedExec ++ " s"),
          Event.print "Program output:",
          Event.print (if args.verbose then out else filterTesterOutput out)], none)
      | TesterResult.timeout =>
        ([Event.checkOutput (testerFileFor p) 10 (memLimitFor p),
          Event.print "RuntimeError: Execution timed out!"], none)
    else ([], none)

/-- The driver `compile_code` (compiler.py lines 35-142) as a pure
function from its inputs to its ordered effects and raised exception. -/
def compile_code (args : Args) (po : ParseOutcome) (env : RunEnv) : CompileResult :=
  let base := initialEvents args env ++ dumpEvents args ++ [Event.saveOutput]
  if has_errors po then
    ⟨base ++ failEvents po, none⟩
  else
    let okBase := base ++ [Event.print "Compilation successful!", Event.genARM]
    if args.run then
      let rb := runBranch args env
      ⟨okBase ++ Event.print "Executing compiled program" :: rb.1, rb.2⟩
    else
      ⟨okBase, none⟩

/-- Recogniser for the backend-invocation event. -/
def isGenARM : Event → Bool
  | Event.genARM => true
  | _ => false

/-- Recogniser for file-write events. -/
def isWriteFile : Event → Bool
  | Event.writeFile _ _ => true
  | _ => false

/-- Recogniser for interpreter-launch events. -/
def isCheckOutput : Event → Bool
  | Event.checkOutput _ _ _ => true
  | _ => false

/-- How many times a run invokes the ARMv8 backend. -/
def genARMCount (evs : List Event) : Nat :=
  (evs.filter isGenARM).length

/-- The arguments the API handler builds for `compile_code` (compiler.py
lines 165-175): the temporary source path with every optional dump and
the run/verbose options disabled. -/
def apiArgs (source_path : String) : Args :=
  { source_file := source_path
    run := false
    verbose := false
    error_files := false
    abstract_ast := false
    symbol_table := false
    token_dump := false }

/-- The captured stdout of a run: the concatenation of its prints, each
followed by the newline Python `print` appends. -/
def capturedStdout (evs : List Event) : String :=
  String.join (evs.filterMap fun e =>
    match e with
    | Event.print s => some (s ++ "\n")
    | _ => none)

/-- The JSON response of the `/compiler` handler. -/
structure ApiResponse where
  status : Nat
  success : Bool
  output : Option String
  error : Option String
deriving DecidableEq, Repr

/-- The `/compiler` handler `api_compile` (compiler.py lines 152-188):
it runs `compile_code` on the submitted source with `apiArgs`, captures
everything printed, and answers `{success: true, output}`; any uncaught
exception — whether raised before/around the pipeline (`handlerExn`,
e.g. by `request.get_json` or the temporary-file handling) or propagated
out of `compile_code` itself — yields `({success: false, error}, 500)`. -/
def api_compile (source_path : String) (po : ParseOutcome) (env : RunEnv)
    (handlerExn : Option String) : ApiResponse :=
  match handlerExn with
  | some e => ⟨500, false, none, some e⟩
  | none =>
    let r := compile_code (apiArgs source_path) po env
    match r.exn with
    | some e => ⟨500, false, none, some e⟩
    | none => ⟨200, true, some (capturedStdout r.events), none⟩

/-- Modelled from the spec: the scanner, parser, semantic-analyser and
code-generator modules imported by the driver (compiler.py lines 20-24)
are not part of the driver file.  Per the spec (§5), all their mutable
state is process-wide and `SymbolTableManager.init()` /
`MemoryManager.init()` re-initialise it, after which the pipeline for
one source file runs to completion synchronously: from a freshly
initialised state, parsing and backend lowering are functions of the
source text alone.  `σ` is the pipeline's mutable state, `fresh` the
state produced by the two `init()` calls, `parseFn` the diagnostics
`parse()` accumulates, `afterParse` the state `parse()` leaves behind,
and `asmFn` the assembly text the backend emits from that state. -/
structure Pipeline (σ : Type) where
  fresh : σ
  parseFn : σ → String → ParseOutcome
  afterParse : σ → String → σ
  asmFn : σ → String

/-- `SymbolTableManager.init(); MemoryManager.init()` (lines 40-41):
whatever state an earlier run left behind is discarded. -/
def initState {σ : Type} (P : Pipeline σ) (st : σ) : σ :=
  P.fresh

/-- The diagnostics one run produces: `parse()` is invoked on the state
the two `init()` calls just produced. -/
def runDiagnostics {σ : Type} (P : Pipeline σ) (st : σ) (args : Args) : ParseOutcome :=
  P.parseFn (initState P st) args.source_file

/-- One full driver run starting from pipeline state `st`. -/
def runCompile {σ : Type} (P : Pipeline σ) (st : σ) (args : Args) (env : RunEnv) :
    CompileResult :=
  compile_code args (runDiagnostics P st args) env

/-- The assembly text one run's backend emits, off the state `parse()`
left behind. -/
def runAsm {σ : Type} (P : Pipeline σ) (st : σ) (args : Args) : String :=
  P.asmFn (P.afterParse (initState P st) args.source_file)

/-! ### Helper lemmas about the driver's event trace -/

theorem genARMCount_append (a b : List Event) :
    genARMCount (a ++ b) = genARMCount a + genARMCount b := by
  simp [genARMCount, List.filter_append]

theorem genARMCount_initial (args : Args) (env : RunEnv) :
    genARMCount (initialEvents args env) = 0 := rfl

theorem genARMCount_dump (args : Args) : genARMCount (dumpEvents args) = 0 := by
  rcases args with ⟨sf, run, vb, ef, ast, st, tk⟩
  unfold dumpEvents genARMCount
  cases ast <;> cases st <;> cases tk <;> cases ef <;> rfl

theorem genARMCount_fail (po : ParseOutcome) : genARMCount (failEvents po) = 0 := by
  unfold failEvents genARMCount
  dsimp only
  split_ifs <;> rfl

theorem genARMCount_single_save : genARMCount [Event.saveOutput] = 0 := rfl

theorem genARMCount_ok_pair (s : String) :
    genARMCount [Event.print s, Event.genARM] = 1 := rfl

theorem genARMCount_print_cons (s : String) (l : List Event) :
    genARMCount (Event.print s :: l) = genARMCount l := rfl

theorem genARMCount_run (args : Args) (env : RunEnv) :
    genARMCount (runBranch args env).1 = 0 := by
  rcases env with ⟨plat, ofe, tester, ec, ee⟩
  unfold runBranch genARMCount
  cases plat <;> cases ofe <;> cases tester <;> rfl

theorem not_mem_of_genARMCount_zero {evs : List Event} (h : genARMCount evs = 0) :
    Event.genARM ∉ evs := by
  intro hm
  have hf : Event.genARM ∈ evs.filter isGenARM :=
    List.mem_filter.mpr ⟨hm, rfl⟩
  rw [List.length_eq_zero.mp h] at hf
  exact absurd hf (List.not_mem_nil _)

theorem hasErrors_false_iff (po : ParseOutcome) :
    has_errors po = false ↔ sentinelsOk po := by
  unfold has_errors flagLex flagSyn flagSem sentinelsOk
  simp only [Bool.or_eq_false_iff, bne_eq_false_iff_eq]
  tauto

/-- Shape of the event trace on an erroring run. -/
theorem compile_events_err (args : Args) (po : ParseOutcome) (env : RunEnv)
    (h : has_errors po = true) :
    (compile_code args po env).events =
      initialEvents args env ++ dumpEvents args ++ [Event.saveOutput] ++ failEvents po ∧
    (compile_code args po env).exn = none := by
  unfold compile_code
  simp [h]

/-- Shape of the event trace on a clean run without `--run`. -/
theorem compile_events_ok_norun (args : Args) (po : ParseOutcome) (env : RunEnv)
    (h1 : has_errors po = false) (h2 : args.run = false) :
    (compile_code args po env).events =
      initialEvents args env ++ dumpEvents args ++ [Event.saveOutput] ++
        [Event.print "Compilation successful!", Event.genARM] ∧
    (compile_code args po env).exn = none := by
  unfold compile_code
  simp [h1, h2]

/-- Shape of the event trace on a clean run with `--run`. -/
theorem compile_events_ok_run (args : Args) (po : ParseOutcome) (env : RunEnv)
    (h1 : has_errors po = false) (h2 : args.run = true) :
    (compile_code args po env).events =
      initialEvents args env ++ dumpEvents args ++ [Event.saveOutput] ++
        [Event.print "Compilation successful!", Event.genARM] ++
        Event.print "Executing compiled program" :: (runBranch args env).1 ∧
    (compile_code args po env).exn = (runBranch args env).2 := by
  unfold compile_code
  simp [h1, h2]

/-- On a supported platform with the program-output file present, the run
branch launches the interpreter with a 10 s timeout and the platform's
memory limit, then prints the result or the timeout message. -/
theorem runBranch_supported (args : Args) (env : RunEnv)
    (h3 : env.plat ≠ Platform.other) (h4 : env.outputFileExists = true) :
    (runBranch args env).1 =
      Event.checkOutput (testerFileFor env.plat) 10 (memLimitFor env.plat) ::
        (match env.tester with
         | TesterResult.ok out =>
           [Event.print ("Execution took " ++ env.elapsedExec ++ " s"),
            Event.print "Program output:",
            Event.print (if args.verbose then out else filterTesterOutput out)]
         | TesterResult.timeout => [Event.print "RuntimeError: Execution timed out!"]) ∧
    (runBranch args env).2 = none := by
  rcases env with ⟨plat, ofe, tester, ec, ee⟩
  simp only at h3 h4
  subst h4
  cases plat
  case other => exact absurd rfl h3
  all_goals cases tester <;> exact ⟨rfl, rfl⟩

theorem writeFilter_initial (args : Args) (env : RunEnv) :
    (initialEvents args env).filter isWriteFile = [] := rfl

theorem writeFilter_dump (args : Args) : (dumpEvents args).filter isWriteFile = [] := by
  rcases args with ⟨sf, run, vb, ef, ast, st, tk⟩
  unfold dumpEvents
  cases ast <;> cases st <;> cases tk <;> cases ef <;> rfl

theorem checkFilter_initial (args : Args) (env : RunEnv) :
    (initialEvents args env).filter isCheckOutput = [] := rfl

theorem checkFilter_dump (args : Args) : (dumpEvents args).filter isCheckOutput = [] := by
  rcases args with ⟨sf, run, vb, ef, ast, st, tk⟩
  unfold dumpEvents
  cases ast <;> cases st <;> cases tk <;> cases ef <;> rfl

theorem writeFilter_fail (po : ParseOutcome) :
    (failEvents po).filter isWriteFile =
      [Event.writeFile "armv8_output.s"
        (errorReportText (pyStrip po.lexicalErrors) (pyStrip po.syntaxErrors)
          (pyStrip po.semanticErrors))] := by
  unfold failEvents
  dsimp only
  split_ifs <;> rfl

theorem compile_exn_eq_none (args : Args) (po : ParseOutcome) (env : RunEnv)
    (h : args.run = false) : (compile_code args po env).exn = none := by
  rcases Bool.eq_false_or_eq_true (has_errors po) with hE | hE
  · exact (compile_events_err args po env hE).2
  · exact (compile_events_ok_norun args po env hE h).2

/-- With no handler exception, the API path always answers success with
the captured stdout (the API disables `--run`, so `compile_code` itself
cannot raise). -/
theorem api_compile_none_eq (sp : String) (po : ParseOutcome) (env : RunEnv) :
    api_compile sp po env none =
      ⟨200, true, some (capturedStdout (compile_code (apiArgs sp) po env).events), none⟩ := by
  have h := compile_exn_eq_none (apiArgs sp) po env rfl
  unfold api_compile
  dsimp only
  rw [h]

theorem genARMCount_compile (args : Args) (po : ParseOutcome) (env : RunEnv) :
    genARMCount (compile_code args po env).events =
      if has_errors po then 0 else 1 := by
  rcases Bool.eq_false_or_eq_true (has_errors po) with hE | hE
  · rw [(compile_events_err args po env hE).1,
      genARMCount_append, genARMCount_append, genARMCount_append,
      genARMCount_initial, genARMCount_dump, genARMCount_fail, genARMCount_single_save, hE]
    rfl
  · rcases Bool.eq_false_or_eq_true args.run with hR | hR
    · rw [(compile_events_ok_run args po env hE hR).1,
        genARMCount_append, genARMCount_append, genARMCount_append, genARMCount_append,
        genARMCount_initial, genARMCount_dump, genARMCount_single_save,
        genARMCount_ok_pair, genARMCount_print_cons, genARMCount_run, hE]
      rfl
    · rw [(compile_events_ok_norun args po env hE hR).1,
        genARMCount_append, genARMCount_append, genARMCount_append,
        genARMCount_initial, genARMCount_dump, genARMCount_single_save,
        genARMCount_ok_pair, hE]
      rfl

/-! ### Concrete inputs used by the witnesses and counterexample -/

/-- A parse outcome in which every accumulated text is exactly its
no-errors sentinel. -/
def wCleanPo : ParseOutcome :=
  ⟨"There is no lexical errors.", "There is no syntax error.",
   "The input program is semantically correct."⟩

/-- A parse outcome with one accumulated error in every category. -/
def wErrPo : ParseOutcome := ⟨"E1", "E2", "E3"⟩

/-- CLI arguments without any option. -/
def wArgs : Args := ⟨"test.c", false, false, false, false, false, false⟩

/-- CLI arguments with only `--run`. -/
def wRunArgs : Args := ⟨"test.c", true, false, false, false, false, false⟩

/-- Linux, program output present, interpreter succeeds. -/
def wEnvLinux : RunEnv :=
  ⟨Platform.linux, true, TesterResult.ok "PRINT hi\nnope", "0.01", "0.02"⟩

/-- Linux, program output present, interpreter output exercising the
non-verbose filter on marker placement and whitespace. -/
def wEnvCex : RunEnv :=
  ⟨Platform.linux, true, TesterResult.ok "PRINT  hi \n PRINT x", "0.01", "0.02"⟩

/-- Linux, program output present, interpreter run times out. -/
def wEnvTimeout : RunEnv := ⟨Platform.linux, true, TesterResult.timeout, "0.01", "0.02"⟩

/-- Linux, program output missing. -/
def wEnvNoFile : RunEnv := ⟨Platform.linux, false, TesterResult.timeout, "0.01", "0.02"⟩

/-- Unsupported host platform. -/
def wEnvOther : RunEnv := ⟨Platform.other, true, TesterResult.timeout, "0.01", "0.02"⟩

/-! ### The claims -/

/-- C1: the ARMv8 backend (`genARM`) is invoked exactly once if and only
if, after `parse()` completes, each category's stripped accumulated error
text equals its fixed no-errors sentinel; if any category differs from
its sentinel, the backend is never invoked. -/
theorem backend_invoked_iff_sentinels (args : Args) (po : ParseOutcome) (env : RunEnv) :
    (genARMCount (compile_code args po env).events = 1 ↔ sentinelsOk po) ∧
    (¬ sentinelsOk po → genARMCount (compile_code args po env).events = 0) := by
  rw [genARMCount_compile]
  rcases Bool.eq_false_or_eq_true (has_errors po) with hE | hE
  · have hs : ¬ sentinelsOk po := by
      intro hc
      have hf := (hasErrors_false_iff po).mpr hc
      rw [hf] at hE
      exact Bool.false_ne_true hE
    rw [hE]
    simp [hs]
  · have hs : sentinelsOk po := (hasErrors_false_iff po).mp hE
    rw [hE]
    simp [hs]

/-- C2: on an erroring run, `armv8_output.s` (in the compiler's
directory) is overwritten with the concatenated error report — a
lexical, then a syntax, then a semantic section, each present exactly
when its stripped category text is non-empty — and the backend, the sole
producer of assembly, is never invoked. -/
theorem error_report_overwrite (args : Args) (po : ParseOutcome) (env : RunEnv)
    (h : has_errors po = true) :
    Event.writeFile "armv8_output.s"
        ((if pyStrip po.lexicalErrors ≠ "" then
            "Lexical Errors:\n" ++ pyStrip po.lexicalErrors ++ "\n\n" else "") ++
         (if pyStrip po.syntaxErrors ≠ "" then
            "Syntax Errors:\n" ++ pyStrip po.syntaxErrors ++ "\n\n" else "") ++
         (if pyStrip po.semanticErrors ≠ "" then
            "Semantic Errors:\n" ++ pyStrip po.semanticErrors ++ "\n" else "")) ∈
      (compile_code args po env).events ∧
    ((compile_code args po env).events.filter isWriteFile) =
      [Event.writeFile "armv8_output.s"
        ((if pyStrip po.lexicalErrors ≠ "" then
            "Lexical Errors:\n" ++ pyStrip po.lexicalErrors ++ "\n\n" else "") ++
         (if pyStrip po.syntaxErrors ≠ "" then
            "Syntax Errors:\n" ++ pyStrip po.syntaxErrors ++ "\n\n" else "") ++
         (if pyStrip po.semanticErrors ≠ "" then
            "Semantic Errors:\n" ++ pyStrip po.semanticErrors ++ "\n" else ""))] ∧
    Event.genARM ∉ (compile_code args po env).events := by
  refine ⟨?_, ?_, ?_⟩
  · rw [(compile_events_err args po env h).1]
    refine List.mem_append.mpr (Or.inr ?_)
    unfold failEvents errorReportText
    dsimp only
    split_ifs <;> simp
  · rw [(compile_events_err args po env h).1]
    simp only [List.filter_append, writeFilter_initial, writeFilter_dump, writeFilter_fail]
    rfl
  · refine not_mem_of_genARMCount_zero ?_
    rw [genARMCount_compile, h]
    rfl

/-- Witness for C2 at a concrete erroring outcome. -/
theorem error_report_overwrite_witness :
    has_errors wErrPo = true ∧
    (Event.writeFile "armv8_output.s"
        ((if pyStrip wErrPo.lexicalErrors ≠ "" then
            "Lexical Errors:\n" ++ pyStrip wErrPo.lexicalErrors ++ "\n\n" else "") ++
         (if pyStrip wErrPo.syntaxErrors ≠ "" then
            "Syntax Errors:\n" ++ pyStrip wErrPo.syntaxErrors ++ "\n\n" else "") ++
         (if pyStrip wErrPo.semanticErrors ≠ "" then
            "Semantic Errors:\n" ++ pyStrip wErrPo.semanticErrors ++ "\n" else "")) ∈
      (compile_code wArgs wErrPo wEnvLinux).events ∧
     ((compile_code wArgs wErrPo wEnvLinux).events.filter isWriteFile) =
       [Event.writeFile "armv8_output.s"
         ((if pyStrip wErrPo.lexicalErrors ≠ "" then
             "Lexical Errors:\n" ++ pyStrip wErrPo.lexicalErrors ++ "\n\n" else "") ++
          (if pyStrip wErrPo.syntaxErrors ≠ "" then
             "Syntax Errors:\n" ++ pyStrip wErrPo.syntaxErrors ++ "\n\n" else "") ++
          (if pyStrip wErrPo.semanticErrors ≠ "" then
             "Semantic Errors:\n" ++ pyStrip wErrPo.semanticErrors ++ "\n" else ""))] ∧
     Event.genARM ∉ (compile_code wArgs wErrPo wEnvLinux).events) :=
  ⟨by decide, error_report_overwrite wArgs wErrPo wEnvLinux (by decide)⟩

/-- C3: two driver runs on the same source, each re-initialising the
symbol-table and memory managers before `parse()` (as `compile_code`
does at lines 40-41), produce identical diagnostics, identical driver
effects, and identical assembly, whatever pipeline state each run
started from. -/
theorem rerun_deterministic {σ : Type} (P : Pipeline σ) (st1 st2 : σ)
    (args : Args) (env : RunEnv) :
    runDiagnostics P st1 args = runDiagnostics P st2 args ∧
    runCompile P st1 args env = runCompile P st2 args env ∧
    runAsm P st1 args = runAsm P st2 args :=
  ⟨rfl, rfl, rfl⟩

/-- C4 counterexample: with verbose disabled, the displayed program
output is not "exactly the lines carrying the marker, marker-stripped":
for interpreter output "PRINT  hi \n PRINT x" the second line carries
"PRINT" yet is omitted (the driver filters on `startswith`), and the
first line is displayed as "hi" — whitespace-trimmed, not merely
marker-stripped.  The filtered text the driver prints is exactly "hi". -/
theorem output_filter_counterexample :
    containsPRINT (String.data " PRINT x") = true ∧
    String.mk (stripMarker (String.data " PRINT x")) = "  x" ∧
    splitlines "PRINT  hi \n PRINT x" = ["PRINT  hi ", " PRINT x"] ∧
    filterTesterOutput "PRINT  hi \n PRINT x" = "hi" ∧
    Event.print "hi" ∈ (compile_code wRunArgs wCleanPo wEnvCex).events := by
  refine ⟨rfl, rfl, rfl, rfl, ?_⟩
  decide

/-- C4 (amended): with verbose disabled, the displayed program output
consists exactly of the lines of the interpreter output that begin with
the marker "PRINT", in their original order, each displayed with every
occurrence of "PRINT" removed and leading/trailing whitespace trimmed;
lines not beginning with the marker are omitted. -/
theorem output_filter_amended (args : Args) (po : ParseOutcome) (env : RunEnv)
    (out : String)
    (h1 : has_errors po = false) (h2 : args.run = true) (h3 : args.verbose = false)
    (h4 : env.plat ≠ Platform.other) (h5 : env.outputFileExists = true)
    (h6 : env.tester = TesterResult.ok out) :
    Event.print (String.intercalate "\n"
        (((splitlines out).filter fun line => startsWithPRINT line.data).map
          fun line => pyStrip (String.mk (stripMarker line.data)))) ∈
      (compile_code args po env).events := by
  have hmem : Event.print (filterTesterOutput out) ∈ (runBranch args env).1 := by
    rcases runBranch_supported args env h4 h5 with ⟨hrb, _⟩
    rw [hrb, h6, h3]
    simp
  rw [(compile_events_ok_run args po env h1 h2).1]
  exact List.mem_append.mpr (Or.inr (List.mem_cons_of_mem _ hmem))

/-- Witness for the amended C4 at interpreter output "PRINT hi\nnope". -/
theorem output_filter_amended_witness :
    has_errors wCleanPo = false ∧
    Event.print (String.intercalate "\n"
        (((splitlines "PRINT hi\nnope").filter fun line => startsWithPRINT line.data).map
          fun line => pyStrip (String.mk (stripMarker line.data)))) ∈
      (compile_code wRunArgs wCleanPo wEnvLinux).events :=
  ⟨by decide, output_filter_amended wRunArgs wCleanPo wEnvLinux "PRINT hi\nnope"
      (by decide) rfl rfl (by decide) rfl rfl⟩

/-- C5: the `/compiler` handler runs the pipeline with every optional
dump and the run/verbose options disabled, answers the captured stdout
of the run together with a success flag, and maps any uncaught exception
to a generic `(success: false, error, 500)` payload. -/
theorem api_compile_contract (sp : String) (po : ParseOutcome) (env : RunEnv) :
    (apiArgs sp).run = false ∧ (apiArgs sp).verbose = false ∧
    (apiArgs sp).error_files = false ∧ (apiArgs sp).abstract_ast = false ∧
    (apiArgs sp).symbol_table = false ∧ (apiArgs sp).token_dump = false ∧
    api_compile sp po env none =
      ⟨200, true, some (capturedStdout (compile_code (apiArgs sp) po env).events), none⟩ ∧
    (∀ e : String, api_compile sp po env (some e) = ⟨500, false, none, some e⟩) :=
  ⟨rfl, rfl, rfl, rfl, rfl, rfl, api_compile_none_eq sp po env, fun _ => rfl⟩

/-- C6: on a clean run with `--run` on a supported platform with the
program output present, the interpreter is launched with a fixed
10-second wall-clock timeout and, on Linux, a 50 MB address-space
ceiling; a timeout is reported as a runtime-error message and raises no
exception. -/
theorem run_timeout_memlimit (args : Args) (po : ParseOutcome) (env : RunEnv)
    (h1 : has_errors po = false) (h2 : args.run = true)
    (h3 : env.plat ≠ Platform.other) (h4 : env.outputFileExists = true) :
    Event.checkOutput (testerFileFor env.plat) 10 (memLimitFor env.plat) ∈
      (compile_code args po env).events ∧
    MAX_VIRTUAL_MEMORY = 50 * 1024 * 1024 ∧
    (env.plat = Platform.linux → memLimitFor env.plat = some MAX_VIRTUAL_MEMORY) ∧
    (env.tester = TesterResult.timeout →
      Event.print "RuntimeError: Execution timed out!" ∈ (compile_code args po env).events ∧
      (compile_code args po env).exn = none) := by
  have hsh := compile_events_ok_run args po env h1 h2
  rcases runBranch_supported args env h3 h4 with ⟨hrb, hexn⟩
  refine ⟨?_, rfl, ?_, ?_⟩
  · rw [hsh.1, hrb]
    simp
  · intro hl
    rw [hl]
    simp [memLimitFor]
  · intro ht
    constructor
    · rw [hsh.1, hrb, ht]
      simp
    · rw [hsh.2, hexn]

/-- Witness for C6 on Linux with a timing-out interpreter. -/
theorem run_timeout_memlimit_witness :
    has_errors wCleanPo = false ∧
    (Event.checkOutput (testerFileFor wEnvTimeout.plat) 10 (memLimitFor wEnvTimeout.plat) ∈
      (compile_code wRunArgs wCleanPo wEnvTimeout).events ∧
    MAX_VIRTUAL_MEMORY = 50 * 1024 * 1024 ∧
    (wEnvTimeout.plat = Platform.linux →
      memLimitFor wEnvTimeout.plat = some MAX_VIRTUAL_MEMORY) ∧
    (wEnvTimeout.tester = TesterResult.timeout →
      Event.print "RuntimeError: Execution timed out!" ∈
        (compile_code wRunArgs wCleanPo wEnvTimeout).events ∧
      (compile_code wRunArgs wCleanPo wEnvTimeout).exn = none)) :=
  ⟨by decide, run_timeout_memlimit wRunArgs wCleanPo wEnvTimeout
      (by decide) rfl (by decide) rfl⟩

/-- C7: on a clean run with `--run` on a platform that is not Windows,
Linux or Darwin, the run aborts with the distinct fatal error
"Unsupported operating system!"; the trace is exactly the successful
trace up to the execution announcement — nothing is added to the three
diagnostic categories and no error report is written. -/
theorem unsupported_platform_aborts (args : Args) (po : ParseOutcome) (env : RunEnv)
    (h1 : has_errors po = false) (h2 : args.run = true)
    (h3 : env.plat = Platform.other) :
    (compile_code args po env).exn = some "Unsupported operating system!" ∧
    (compile_code args po env).events =
      initialEvents args env ++ dumpEvents args ++
        [Event.saveOutput, Event.print "Compilation successful!", Event.genARM,
         Event.print "Executing compiled program"] ∧
    ((compile_code args po env).events.filter isWriteFile) = [] := by
  have hrb : runBranch args env = ([], some "Unsupported operating system!") := by
    unfold runBranch
    rw [h3]
  rcases compile_events_ok_run args po env h1 h2 with ⟨he, hx⟩
  refine ⟨?_, ?_, ?_⟩
  · rw [hx, hrb]
  · rw [he, hrb]
    simp
  · rw [he, hrb]
    simp [List.filter_append, writeFilter_initial, writeFilter_dump, isWriteFile]

/-- Witness for C7 on an unsupported platform. -/
theorem unsupported_platform_aborts_witness :
    has_errors wCleanPo = false ∧
    ((compile_code wRunArgs wCleanPo wEnvOther).exn =
        some "Unsupported operating system!" ∧
    (compile_code wRunArgs wCleanPo wEnvOther).events =
      initialEvents wRunArgs wEnvOther ++ dumpEvents wRunArgs ++
        [Event.saveOutput, Event.print "Compilation successful!", Event.genARM,
         Event.print "Executing compiled program"] ∧
    ((compile_code wRunArgs wCleanPo wEnvOther).events.filter isWriteFile) = []) :=
  ⟨by decide, unsupported_platform_aborts wRunArgs wCleanPo wEnvOther
      (by decide) rfl rfl⟩

/-- C8: a `/compiler` request whose source compiles with diagnostics but
raises no exception is still answered with `success = true`: the flag
only reflects the absence of an uncaught exception. -/
theorem api_success_despite_diagnostics (sp : String) (po : ParseOutcome) (env : RunEnv)
    (h : has_errors po = true) :
    (api_compile sp po env none).success = true ∧
    (api_compile sp po env none).status = 200 := by
  rw [api_compile_none_eq sp po env]
  exact ⟨rfl, rfl⟩

/-- Witness for C8 at a concrete erroring outcome. -/
theorem api_success_despite_diagnostics_witness :
    has_errors wErrPo = true ∧
    ((api_compile "tmp.c" wErrPo wEnvLinux none).success = true ∧
     (api_compile "tmp.c" wErrPo wEnvLinux none).status = 200) :=
  ⟨by decide, api_success_despite_diagnostics "tmp.c" wErrPo wEnvLinux (by decide)⟩

/-- C9: `save_output()` serialises the intermediate code on every run,
before the error check: the trace always splits as the parse/dump block,
then `saveOutput`, then the rest — and on an erroring run the
error-report write happens in that rest, after `saveOutput`. -/
theorem save_output_unconditional (args : Args) (po : ParseOutcome) (env : RunEnv) :
    Event.saveOutput ∈ (compile_code args po env).events ∧
    ∃ rest, (compile_code args po env).events =
        initialEvents args env ++ dumpEvents args ++ Event.saveOutput :: rest ∧
      (has_errors po = true →
        Event.writeFile "armv8_output.s"
            (errorReportText (pyStrip po.lexicalErrors) (pyStrip po.syntaxErrors)
              (pyStrip po.semanticErrors)) ∈ rest) := by
  rcases Bool.eq_false_or_eq_true (has_errors po) with hE | hE
  · refine ⟨?_, failEvents po, ?_, ?_⟩
    · rw [(compile_events_err args po env hE).1]
      simp
    · rw [(compile_events_err args po env hE).1]
      simp
    · intro _
      unfold failEvents errorReportText
      dsimp only
      split_ifs <;> simp
  · rcases Bool.eq_false_or_eq_true args.run with hR | hR
    · refine ⟨?_, Event.print "Compilation successful!" :: Event.genARM ::
          Event.print "Executing compiled program" :: (runBranch args env).1, ?_, ?_⟩
      · rw [(compile_events_ok_run args po env hE hR).1]
        simp
      · rw [(compile_events_ok_run args po env hE hR).1]
        simp
      · intro hc
        rw [hc] at hE
        exact Bool.noConfusion hE
    · refine ⟨?_, [Event.print "Compilation successful!", Event.genARM], ?_, ?_⟩
      · rw [(compile_events_ok_norun args po env hE hR).1]
        simp
      · rw [(compile_events_ok_norun args po env hE hR).1]
        simp
      · intro hc
        rw [hc] at hE
        exact Bool.noConfusion hE

/-- C10: on a clean run with `--run` on a supported platform, if
`output/output.txt` is missing the interpreter is silently skipped: no
interpreter launch, no exception, and the trace ends right after the
execution announcement with no further report of any kind. -/
theorem missing_output_skips_run (args : Args) (po : ParseOutcome) (env : RunEnv)
    (h1 : has_errors po = false) (h2 : args.run = true)
    (h3 : env.plat ≠ Platform.other) (h4 : env.outputFileExists = false) :
    ((compile_code args po env).events.filter isCheckOutput) = [] ∧
    (compile_code args po env).exn = none ∧
    (compile_code args po env).events =
      initialEvents args env ++ dumpEvents args ++
        [Event.saveOutput, Event.print "Compilation successful!", Event.genARM,
         Event.print "Executing compiled program"] := by
  have hrb : runBranch args env = ([], none) := by
    rcases env with ⟨plat, ofe, tester, ec, ee⟩
    simp only at h3 h4
    subst h4
    unfold runBranch
    cases plat
    case other => exact absurd rfl h3
    all_goals cases tester <;> rfl
  rcases compile_events_ok_run args po env h1 h2 with ⟨he, hx⟩
  refine ⟨?_, ?_, ?_⟩
  · rw [he, hrb]
    simp [List.filter_append, checkFilter_initial, checkFilter_dump, isCheckOutput]
  · rw [hx, hrb]
  · rw [he, hrb]
    simp

/-- Witness for C10 with the program-output file missing on Linux. -/
theorem missing_output_skips_run_witness :
    has_errors wCleanPo = false ∧
    (((compile_code wRunArgs wCleanPo wEnvNoFile).events.filter isCheckOutput) = [] ∧
    (compile_code wRunArgs wCleanPo wEnvNoFile).exn = none ∧
    (compile_code wRunArgs wCleanPo wEnvNoFile).events =
      initialEvents wRunArgs wEnvNoFile ++ dumpEvents wRunArgs ++
        [Event.saveOutput, Event.print "Compilation successful!", Event.genARM,
         Event.print "Executing compiled program"]) :=
  ⟨by decide, missing_output_skips_run wRunArgs wCleanPo wEnvNoFile
      (by decide) rfl (by decide) rfl⟩

/-- Witness for C1: the clean outcome satisfies the sentinel test and
triggers exactly one backend invocation. -/
theorem backend_invoked_iff_sentinels_witness :
    (genARMCount (compile_code wArgs wCleanPo wEnvLinux).events = 1 ↔
      sentinelsOk wCleanPo) ∧
    (¬ sentinelsOk wCleanPo →
      genARMCount (compile_code wArgs wCleanPo wEnvLinux).events = 0) :=
  backend_invoked_iff_sentinels wArgs wCleanPo wEnvLinux

/-- A concrete pipeline over a natural-number state, used to instantiate
the determinism theorem. -/
def wPipeline : Pipeline Nat :=
  ⟨0, fun _ _ => wCleanPo, fun s _ => s, fun _ => "mov x0, #0"⟩

/-- Witness for C3 at two different prior pipeline states. -/
theorem rerun_deterministic_witness :
    runDiagnostics wPipeline 1 wArgs = runDiagnostics wPipeline 2 wArgs ∧
    runCompile wPipeline 1 wArgs wEnvLinux = runCompile wPipeline 2 wArgs wEnvLinux ∧
    runAsm wPipeline 1 wArgs = runAsm wPipeline 2 wArgs :=
  rerun_deterministic wPipeline 1 2 wArgs wEnvLinux

/-- Witness for C5 at a concrete request. -/
theorem api_compile_contract_witness :
    (apiArgs "tmp2.c").run = false ∧ (apiArgs "tmp2.c").verbose = false ∧
    (apiArgs "tmp2.c").error_files = false ∧ (apiArgs "tmp2.c").abstract_ast = false ∧
    (apiArgs "tmp2.c").symbol_table = false ∧ (apiArgs "tmp2.c").token_dump = false ∧
    api_compile "tmp2.c" wCleanPo wEnvLinux none =
      ⟨200, true,
       some (capturedStdout (compile_code (apiArgs "tmp2.c") wCleanPo wEnvLinux).events),
       none⟩ ∧
    (∀ e : String,
      api_compile "tmp2.c" wCleanPo wEnvLinux (some e) = ⟨500, false, none, some e⟩) :=
  api_compile_contract "tmp2.c" wCleanPo wEnvLinux

/-- Witness for C9 at a concrete erroring outcome. -/
theorem save_output_unconditional_witness :
    Event.saveOutput ∈ (compile_code wArgs wErrPo wEnvLinux).events ∧
    ∃ rest, (compile_code wArgs wErrPo wEnvLinux).events =
        initialEvents wArgs wEnvLinux ++ dumpEvents wArgs ++ Event.saveOutput :: rest ∧
      (has_errors wErrPo = true →
        Event.writeFile "armv8_output.s"
            (errorReportText (pyStrip wErrPo.lexicalErrors) (pyStrip wErrPo.syntaxErrors)
              (pyStrip wErrPo.semanticErrors)) ∈ rest) :=
  save_output_unconditional wArgs wErrPo wEnvLinux
